import Mathlib

/-!
Shallow embedding of the options pricing and risk engine
(src/app/services/options and src/options trees).

Dates are modelled as integer day indices; `(expiry - today).days` in the
Python source becomes plain integer subtraction.  Real-valued market
quantities (Python floats) are modelled as real numbers.  The external
`scipy.stats.norm.cdf` / `norm.pdf` functions are modelled as explicit
function parameters `normCdf` / `normPdf` of type `ℝ → ℝ`.
-/

namespace OptionsEngine

/-- Option kind, `OptionType = Literal["call", "put"]` in
src/app/services/options/core/instruments.py. -/
inductive OptionType where
  | call
  | put
deriving DecidableEq

/-- Exercise style, `StyleType = Literal["european", "american"]`. -/
inductive StyleType where
  | european
  | american
deriving DecidableEq

/-- OptionContract from src/app/services/options/core/instruments.py:
symbol, option_type, style, strike, expiry, quantity (contract-level
multiplier, default 1.0). -/
structure OptionContract where
  symbol : String
  option_type : OptionType
  style : StyleType
  strike : ℝ
  expiry : ℤ
  quantity : ℝ

/-- MarketSnapshot from src/options/core/market_data.py: spot, rate,
dividend_yield, volatility, timestamp (a metadata string). -/
structure MarketSnapshot where
  spot : ℝ
  rate : ℝ
  dividend_yield : ℝ
  volatility : ℝ
  timestamp : String

/-- Time to expiry in years, `(option.expiry - today).days / 365.0`. -/
noncomputable def yearFrac (expiry today : ℤ) : ℝ :=
  ((expiry - today : ℤ) : ℝ) / 365

/-- European Black-Scholes price, translated from
src/app/services/options/pricing/black_scholes.py (`price`). -/
noncomputable def price (normCdf : ℝ → ℝ) (option : OptionContract)
    (market : MarketSnapshot) (today : ℤ) : ℝ :=
  let S := market.spot
  let K := option.strike
  let r := market.rate
  let q := market.dividend_yield
  let sigma := market.volatility
  let T := yearFrac option.expiry today
  if T ≤ 0 then
    match option.option_type with
    | OptionType.call => max (S - K) 0
    | OptionType.put => max (K - S) 0
  else if sigma ≤ 0 then
    let forward := S * Real.exp (-q * T) - K * Real.exp (-r * T)
    match option.option_type with
    | OptionType.call => max forward 0
    | OptionType.put => max (-forward) 0
  else
    let sqrt_T := Real.sqrt T
    let d1 := (Real.log (S / K) + (r - q + 0.5 * sigma ^ 2) * T) / (sigma * sqrt_T)
    let d2 := d1 - sigma * sqrt_T
    match option.option_type with
    | OptionType.call =>
        S * Real.exp (-q * T) * normCdf d1 - K * Real.exp (-r * T) * normCdf d2
    | OptionType.put =>
        K * Real.exp (-r * T) * normCdf (-d2) - S * Real.exp (-q * T) * normCdf (-d1)

/-- Record of the five Greeks returned by the greeks engine.  (The Python
dict also carries optional diagnostics `price_intrinsic`, `d1`, `d2`,
which no caller in the engine uses; they are not modelled.) -/
structure Greeks where
  delta : ℝ
  gamma : ℝ
  vega : ℝ
  theta : ℝ
  rho : ℝ

/-- Analytical Black-Scholes Greeks, translated from
src/options/pricing/greeks.py (`greeks`).  Conventions of the source:
theta per calendar day (annual / 365), vega per 1.00 vol, rho per 1.00
rate. -/
noncomputable def greeks (normCdf normPdf : ℝ → ℝ) (option : OptionContract)
    (market : MarketSnapshot) (today : ℤ) : Greeks :=
  let S := market.spot
  let K := option.strike
  let r := market.rate
  let q := market.dividend_yield
  let sigma := market.volatility
  let T := yearFrac option.expiry today
  if T ≤ 0 then
    match option.option_type with
    | OptionType.call =>
        ⟨if S > K then 1 else if S < K then 0 else 0.5, 0, 0, 0, 0⟩
    | OptionType.put =>
        ⟨if S < K then -1 else if S > K then 0 else -0.5, 0, 0, 0, 0⟩
  else if sigma ≤ 0 then
    let forward := S * Real.exp (-q * T) - K * Real.exp (-r * T)
    match option.option_type with
    | OptionType.call =>
        ⟨if forward > 0 then Real.exp (-q * T)
          else if forward < 0 then 0 else 0.5 * Real.exp (-q * T),
         0, 0, 0,
         if forward > 0 then T * K * Real.exp (-r * T) else 0⟩
    | OptionType.put =>
        ⟨if forward < 0 then -Real.exp (-q * T)
          else if forward > 0 then 0 else -(0.5 * Real.exp (-q * T)),
         0, 0, 0,
         if forward < 0 then -(T * K * Real.exp (-r * T)) else 0⟩
  else
    let sqrt_T := Real.sqrt T
    let disc_q := Real.exp (-q * T)
    let disc_r := Real.exp (-r * T)
    let d1 := (Real.log (S / K) + (r - q + 0.5 * sigma ^ 2) * T) / (sigma * sqrt_T)
    let d2 := d1 - sigma * sqrt_T
    let pdf_d1 := normPdf d1
    let gamma := disc_q * pdf_d1 / (S * sigma * sqrt_T)
    let vega := S * disc_q * pdf_d1 * sqrt_T
    match option.option_type with
    | OptionType.call =>
        let delta := disc_q * normCdf d1
        let rho := K * T * disc_r * normCdf d2
        let theta_year :=
          -(S * disc_q * pdf_d1 * sigma) / (2 * sqrt_T)
            - r * K * disc_r * normCdf d2
            + q * S * disc_q * normCdf d1
        ⟨delta, gamma, vega, theta_year / 365, rho⟩
    | OptionType.put =>
        let delta := disc_q * (normCdf d1 - 1)
        let rho := -(K * T * disc_r * normCdf (-d2))
        let theta_year :=
          -(S * disc_q * pdf_d1 * sigma) / (2 * sqrt_T)
            + r * K * disc_r * normCdf (-d2)
            - q * S * disc_q * normCdf (-d1)
        ⟨delta, gamma, vega, theta_year / 365, rho⟩

/-- C1: for every contract, market snapshot and valuation date, `price`
returns: the intrinsic value max(spot−strike,0) (call) / max(strike−spot,0)
(put) when T = (expiry − valuation_date)/365 ≤ 0; otherwise, when
volatility ≤ 0, the discounted forward intrinsic value with
forward = S·e^(−qT) − K·e^(−rT); otherwise the Black-Scholes closed form
S·e^(−qT)·Φ(d1) − K·e^(−rT)·Φ(d2) (call) resp.
K·e^(−rT)·Φ(−d2) − S·e^(−qT)·Φ(−d1) (put), with
d1 = [ln(S/K) + (r−q+0.5σ²)T]/(σ√T) and d2 = d1 − σ√T. -/
theorem price_cases (normCdf : ℝ → ℝ) (o : OptionContract)
    (m : MarketSnapshot) (today : ℤ) :
    price normCdf o m today =
      if yearFrac o.expiry today ≤ 0 then
        (match o.option_type with
         | OptionType.call => max (m.spot - o.strike) 0
         | OptionType.put => max (o.strike - m.spot) 0)
      else if m.volatility ≤ 0 then
        (match o.option_type with
         | OptionType.call =>
             max (m.spot * Real.exp (-m.dividend_yield * yearFrac o.expiry today)
               - o.strike * Real.exp (-m.rate * yearFrac o.expiry today)) 0
         | OptionType.put =>
             max (-(m.spot * Real.exp (-m.dividend_yield * yearFrac o.expiry today)
               - o.strike * Real.exp (-m.rate * yearFrac o.expiry today))) 0)
      else
        (match o.option_type with
         | OptionType.call =>
             m.spot * Real.exp (-m.dividend_yield * yearFrac o.expiry today) *
               normCdf ((Real.log (m.spot / o.strike)
                 + (m.rate - m.dividend_yield + 0.5 * m.volatility ^ 2) * yearFrac o.expiry today)
                 / (m.volatility * Real.sqrt (yearFrac o.expiry today)))
             - o.strike * Real.exp (-m.rate * yearFrac o.expiry today) *
               normCdf ((Real.log (m.spot / o.strike)
                 + (m.rate - m.dividend_yield + 0.5 * m.volatility ^ 2) * yearFrac o.expiry today)
                 / (m.volatility * Real.sqrt (yearFrac o.expiry today))
                 - m.volatility * Real.sqrt (yearFrac o.expiry today))
         | OptionType.put =>
             o.strike * Real.exp (-m.rate * yearFrac o.expiry today) *
               normCdf (-((Real.log (m.spot / o.strike)
                 + (m.rate - m.dividend_yield + 0.5 * m.volatility ^ 2) * yearFrac o.expiry today)
                 / (m.volatility * Real.sqrt (yearFrac o.expiry today))
                 - m.volatility * Real.sqrt (yearFrac o.expiry today)))
             - m.spot * Real.exp (-m.dividend_yield * yearFrac o.expiry today) *
               normCdf (-((Real.log (m.spot / o.strike)
                 + (m.rate - m.dividend_yield + 0.5 * m.volatility ^ 2) * yearFrac o.expiry today)
                 / (m.volatility * Real.sqrt (yearFrac o.expiry today))))) := by
  rfl

/-- Concrete at-the-money call contract used for concrete evaluations:
strike 100, expiry at day 365. -/
def atmCall : OptionContract :=
  ⟨"AAPL", OptionType.call, StyleType.european, 100, 365, 1⟩

/-- Concrete degenerate market: spot 100, rate 0, dividend yield 0,
volatility 0. -/
def zeroVolMarket : MarketSnapshot :=
  ⟨100, 0, 0, 0, "2026-01-22"⟩

/-- Spec-side rho for the zero-volatility branch, following the claim's
words: rho collapses to a discounted-forward step function with the same
boundary tie-break convention as delta, i.e. half-weighted at exact
equality forward = 0. -/
noncomputable def rhoZeroVolSpec (o : OptionContract) (m : MarketSnapshot)
    (today : ℤ) : ℝ :=
  let T := yearFrac o.expiry today
  let forward := m.spot * Real.exp (-m.dividend_yield * T)
    - o.strike * Real.exp (-m.rate * T)
  match o.option_type with
  | OptionType.call =>
      if forward > 0 then T * o.strike * Real.exp (-m.rate * T)
      else if forward < 0 then 0
      else 0.5 * (T * o.strike * Real.exp (-m.rate * T))
  | OptionType.put =>
      if forward < 0 then -(T * o.strike * Real.exp (-m.rate * T))
      else if forward > 0 then 0
      else -(0.5 * (T * o.strike * Real.exp (-m.rate * T)))

/-- Delta of the zero-volatility branch as the code computes it: a
discounted-forward step function, half-weighted at forward = 0. -/
noncomputable def deltaZeroVolAmended (o : OptionContract) (m : MarketSnapshot)
    (today : ℤ) : ℝ :=
  let T := yearFrac o.expiry today
  let forward := m.spot * Real.exp (-m.dividend_yield * T)
    - o.strike * Real.exp (-m.rate * T)
  match o.option_type with
  | OptionType.call =>
      if forward > 0 then Real.exp (-m.dividend_yield * T)
      else if forward < 0 then 0
      else 0.5 * Real.exp (-m.dividend_yield * T)
  | OptionType.put =>
      if forward < 0 then -Real.exp (-m.dividend_yield * T)
      else if forward > 0 then 0
      else -(0.5 * Real.exp (-m.dividend_yield * T))

/-- Rho of the zero-volatility branch as the code computes it: a step
function that is zero unless the discounted forward is strictly in the
money (no half-weighting at the tie). -/
noncomputable def rhoZeroVolAmended (o : OptionContract) (m : MarketSnapshot)
    (today : ℤ) : ℝ :=
  let T := yearFrac o.expiry today
  let forward := m.spot * Real.exp (-m.dividend_yield * T)
    - o.strike * Real.exp (-m.rate * T)
  match o.option_type with
  | OptionType.call =>
      if forward > 0 then T * o.strike * Real.exp (-m.rate * T) else 0
  | OptionType.put =>
      if forward < 0 then -(T * o.strike * Real.exp (-m.rate * T)) else 0

/-- C2 counterexample: at strike 100, spot 100, r = q = 0, volatility 0 and
one year to expiry, the discounted forward is exactly 0; the code returns
rho = 0 while the claim's half-weighted convention demands
0.5·T·K·e^(−rT) = 50. -/
theorem greeks_zero_vol_rho_counterexample :
    (greeks (fun _ => 0) (fun _ => 0) atmCall zeroVolMarket 0).rho ≠
      rhoZeroVolSpec atmCall zeroVolMarket 0 := by
  norm_num [greeks, rhoZeroVolSpec, atmCall, zeroVolMarket, yearFrac]

/-- C2 amended: with T > 0 and volatility ≤ 0, `greeks` returns
gamma = vega = theta = 0, delta a discounted-forward step function
half-weighted at forward = 0, and rho a discounted-forward step function
that is zero at forward = 0 (rho does not share delta's half-weighted
tie-break). -/
theorem greeks_zero_vol_cases (normCdf normPdf : ℝ → ℝ) (o : OptionContract)
    (m : MarketSnapshot) (today : ℤ)
    (hT : 0 < yearFrac o.expiry today) (hvol : m.volatility ≤ 0) :
    (greeks normCdf normPdf o m today).gamma = 0 ∧
    (greeks normCdf normPdf o m today).vega = 0 ∧
    (greeks normCdf normPdf o m today).theta = 0 ∧
    (greeks normCdf normPdf o m today).delta = deltaZeroVolAmended o m today ∧
    (greeks normCdf normPdf o m today).rho = rhoZeroVolAmended o m today := by
  simp only [greeks, deltaZeroVolAmended, rhoZeroVolAmended,
    if_neg (not_le.mpr hT), if_pos hvol]
  cases o.option_type <;> exact ⟨rfl, rfl, rfl, rfl, rfl⟩

/-- Witness for the amended C2 theorem at the concrete zero-volatility
at-the-money input. -/
theorem greeks_zero_vol_cases_witness :
    0 < yearFrac atmCall.expiry 0 ∧ zeroVolMarket.volatility ≤ 0 ∧
    ((greeks (fun _ => 0) (fun _ => 0) atmCall zeroVolMarket 0).gamma = 0 ∧
     (greeks (fun _ => 0) (fun _ => 0) atmCall zeroVolMarket 0).vega = 0 ∧
     (greeks (fun _ => 0) (fun _ => 0) atmCall zeroVolMarket 0).theta = 0 ∧
     (greeks (fun _ => 0) (fun _ => 0) atmCall zeroVolMarket 0).delta =
       deltaZeroVolAmended atmCall zeroVolMarket 0 ∧
     (greeks (fun _ => 0) (fun _ => 0) atmCall zeroVolMarket 0).rho =
       rhoZeroVolAmended atmCall zeroVolMarket 0) :=
  ⟨by norm_num [yearFrac, atmCall], by norm_num [zeroVolMarket],
   greeks_zero_vol_cases (fun _ => 0) (fun _ => 0) atmCall zeroVolMarket 0
     (by norm_num [yearFrac, atmCall]) (by norm_num [zeroVolMarket])⟩

/-- Position from src/options/portfolio/portfolio.py: a contract plus a
signed quantity (positive = long, negative = short). -/
structure Position where
  contract : OptionContract
  quantity : ℝ

/-- Value of one position, `pos.quantity * bs_price(pos.contract, ...)`. -/
noncomputable def position_price (normCdf : ℝ → ℝ) (pos : Position)
    (market : MarketSnapshot) (today : ℤ) : ℝ :=
  pos.quantity * price normCdf pos.contract market today

/-- Greeks of one position: each Greek scaled by the signed quantity. -/
noncomputable def position_greeks (normCdf normPdf : ℝ → ℝ) (pos : Position)
    (market : MarketSnapshot) (today : ℤ) : Greeks :=
  let g := greeks normCdf normPdf pos.contract market today
  ⟨pos.quantity * g.delta, pos.quantity * g.gamma, pos.quantity * g.vega,
   pos.quantity * g.theta, pos.quantity * g.rho⟩

/-- Portfolio value: Python's `sum(position_price(p, ...) for p in positions)`,
a left fold starting at 0. -/
noncomputable def portfolio_price (normCdf : ℝ → ℝ) (positions : List Position)
    (market : MarketSnapshot) (today : ℤ) : ℝ :=
  positions.foldl (fun acc p => acc + position_price normCdf p market today) 0

/-- Portfolio Greeks: totals start at zero and accumulate each position's
scaled Greeks field by field. -/
noncomputable def portfolio_greeks (normCdf normPdf : ℝ → ℝ)
    (positions : List Position) (market : MarketSnapshot) (today : ℤ) : Greeks :=
  positions.foldl
    (fun acc p =>
      let g := position_greeks normCdf normPdf p market today
      ⟨acc.delta + g.delta, acc.gamma + g.gamma, acc.vega + g.vega,
       acc.theta + g.theta, acc.rho + g.rho⟩)
    ⟨0, 0, 0, 0, 0⟩

/-- Shares of underlying needed to delta-hedge the portfolio:
`-portfolio_delta`. -/
noncomputable def delta_hedge_shares (normCdf normPdf : ℝ → ℝ)
    (positions : List Position) (market : MarketSnapshot) (today : ℤ) : ℝ :=
  -(portfolio_greeks normCdf normPdf positions market today).delta

/-- Left fold of real additions equals the initial value plus the sum of
the mapped list. -/
theorem foldl_add_map_sum {α : Type} (f : α → ℝ) (l : List α) (a : ℝ) :
    l.foldl (fun acc p => acc + f p) a = a + (l.map f).sum := by
  induction l generalizing a with
  | nil => simp
  | cons x xs ih => simp [ih]; ring

/-- Field-wise description of the Greeks accumulator fold. -/
theorem portfolio_greeks_foldl (normCdf normPdf : ℝ → ℝ)
    (positions : List Position) (market : MarketSnapshot) (today : ℤ)
    (init : Greeks) :
    positions.foldl
      (fun acc p =>
        let g := position_greeks normCdf normPdf p market today
        (⟨acc.delta + g.delta, acc.gamma + g.gamma, acc.vega + g.vega,
          acc.theta + g.theta, acc.rho + g.rho⟩ : Greeks))
      init =
    ⟨init.delta + (positions.map (fun p => (position_greeks normCdf normPdf p market today).delta)).sum,
     init.gamma + (positions.map (fun p => (position_greeks normCdf normPdf p market today).gamma)).sum,
     init.vega + (positions.map (fun p => (position_greeks normCdf normPdf p market today).vega)).sum,
     init.theta + (positions.map (fun p => (position_greeks normCdf normPdf p market today).theta)).sum,
     init.rho + (positions.map (fun p => (position_greeks normCdf normPdf p market today).rho)).sum⟩ := by
  induction positions generalizing init with
  | nil => simp
  | cons x xs ih =>
    simp only [List.foldl_cons, List.map_cons, List.sum_cons, ih]
    congr 1 <;> ring

/-- C7: portfolio aggregation is linear and sign-symmetric: scaling a
position's signed quantity by k scales its price and every Greek field by
k, negating the quantity negates every output, and portfolio price and
Greeks are the sums of the per-position values. -/
theorem portfolio_linearity (normCdf normPdf : ℝ → ℝ) (m : MarketSnapshot)
    (today : ℤ) (c : OptionContract) (q k : ℝ) (ps : List Position) :
    position_price normCdf ⟨c, k * q⟩ m today
      = k * position_price normCdf ⟨c, q⟩ m today ∧
    (position_greeks normCdf normPdf ⟨c, k * q⟩ m today).delta
      = k * (position_greeks normCdf normPdf ⟨c, q⟩ m today).delta ∧
    (position_greeks normCdf normPdf ⟨c, k * q⟩ m today).gamma
      = k * (position_greeks normCdf normPdf ⟨c, q⟩ m today).gamma ∧
    (position_greeks normCdf normPdf ⟨c, k * q⟩ m today).vega
      = k * (position_greeks normCdf normPdf ⟨c, q⟩ m today).vega ∧
    (position_greeks normCdf normPdf ⟨c, k * q⟩ m today).theta
      = k * (position_greeks normCdf normPdf ⟨c, q⟩ m today).theta ∧
    (position_greeks normCdf normPdf ⟨c, k * q⟩ m today).rho
      = k * (position_greeks normCdf normPdf ⟨c, q⟩ m today).rho ∧
    position_price normCdf ⟨c, -q⟩ m today
      = -(position_price normCdf ⟨c, q⟩ m today) ∧
    (position_greeks normCdf normPdf ⟨c, -q⟩ m today).delta
      = -(position_greeks normCdf normPdf ⟨c, q⟩ m today).delta ∧
    (position_greeks normCdf normPdf ⟨c, -q⟩ m today).gamma
      = -(position_greeks normCdf normPdf ⟨c, q⟩ m today).gamma ∧
    (position_greeks normCdf normPdf ⟨c, -q⟩ m today).vega
      = -(position_greeks normCdf normPdf ⟨c, q⟩ m today).vega ∧
    (position_greeks normCdf normPdf ⟨c, -q⟩ m today).theta
      = -(position_greeks normCdf normPdf ⟨c, q⟩ m today).theta ∧
    (position_greeks normCdf normPdf ⟨c, -q⟩ m today).rho
      = -(position_greeks normCdf normPdf ⟨c, q⟩ m today).rho ∧
    portfolio_price normCdf ps m today
      = (ps.map (fun p => position_price normCdf p m today)).sum ∧
    (portfolio_greeks normCdf normPdf ps m today).delta
      = (ps.map (fun p => (position_greeks normCdf normPdf p m today).delta)).sum ∧
    (portfolio_greeks normCdf normPdf ps m today).gamma
      = (ps.map (fun p => (position_greeks normCdf normPdf p m today).gamma)).sum ∧
    (portfolio_greeks normCdf normPdf ps m today).vega
      = (ps.map (fun p => (position_greeks normCdf normPdf p m today).vega)).sum ∧
    (portfolio_greeks normCdf normPdf ps m today).theta
      = (ps.map (fun p => (position_greeks normCdf normPdf p m today).theta)).sum ∧
    (portfolio_greeks normCdf normPdf ps m today).rho
      = (ps.map (fun p => (position_greeks normCdf normPdf p m today).rho)).sum := by
  refine ⟨by simp [position_price]; try ring,
    by simp [position_greeks]; try ring, by simp [position_greeks]; try ring,
    by simp [position_greeks]; try ring, by simp [position_greeks]; try ring,
    by simp [position_greeks]; try ring,
    by simp [position_price]; try ring,
    by simp [position_greeks]; try ring, by simp [position_greeks]; try ring,
    by simp [position_greeks]; try ring, by simp [position_greeks]; try ring,
    by simp [position_greeks]; try ring,
    ?_, ?_, ?_, ?_, ?_, ?_⟩
  · simpa using foldl_add_map_sum (fun p => position_price normCdf p m today) ps 0
  all_goals
    simp [portfolio_greeks,
      portfolio_greeks_foldl normCdf normPdf ps m today ⟨0, 0, 0, 0, 0⟩]

/-- Concrete call used in the put-call parity counterexample: strike 100,
expiry at day 0 (valued after expiry). -/
def parityCall : OptionContract :=
  ⟨"X", OptionType.call, StyleType.european, 100, 0, 1⟩

/-- Matching put of the parity counterexample. -/
def parityPut : OptionContract :=
  ⟨"X", OptionType.put, StyleType.european, 100, 0, 1⟩

/-- Market of the parity counterexample: spot 100, rate 1.0, no dividends,
volatility 0.25. -/
def parityMarket : MarketSnapshot :=
  ⟨100, 1, 0, 0.25, "t"⟩

/-- C8 counterexample: valued 365 days after expiry (T = −1) with rate 1,
call − put is 0 (both legs are intrinsic) while
S·e^(−qT) − K·e^(−rT) = 100 − 100·e, so parity is off by more than 1 —
far beyond any numerical tolerance. -/
theorem put_call_parity_counterexample :
    |(price (fun _ => 0) parityCall parityMarket 365
        - price (fun _ => 0) parityPut parityMarket 365)
      - (parityMarket.spot *
          Real.exp (-parityMarket.dividend_yield * yearFrac parityCall.expiry 365)
        - parityCall.strike *
          Real.exp (-parityMarket.rate * yearFrac parityCall.expiry 365))| > 1 := by
  have he : (2 : ℝ) ≤ Real.exp 1 := by
    have h := Real.add_one_le_exp (1 : ℝ)
    linarith
  have h1 : price (fun _ => (0 : ℝ)) parityCall parityMarket 365 = 0 := by
    norm_num [price, parityCall, parityMarket, yearFrac]
  have h2 : price (fun _ => (0 : ℝ)) parityPut parityMarket 365 = 0 := by
    norm_num [price, parityPut, parityMarket, yearFrac]
  have h3 : parityMarket.spot *
        Real.exp (-parityMarket.dividend_yield * yearFrac parityCall.expiry 365)
      - parityCall.strike *
        Real.exp (-parityMarket.rate * yearFrac parityCall.expiry 365)
      = 100 - 100 * Real.exp 1 := by
    norm_num [parityMarket, parityCall, yearFrac]
  rw [h1, h2, h3]
  rw [abs_of_nonneg (by linarith)]
  linarith

/-- C8 amended: for otherwise-identical call and put contracts, every
market snapshot and every valuation date at or before expiry, and any
cumulative distribution satisfying Φ(x) + Φ(−x) = 1, put-call parity holds
exactly: call − put = S·e^(−qT) − K·e^(−rT). -/
theorem put_call_parity (normCdf : ℝ → ℝ)
    (hsym : ∀ x, normCdf x + normCdf (-x) = 1)
    (sym : String) (st : StyleType) (K cq : ℝ) (expiry today : ℤ)
    (m : MarketSnapshot) (hT : 0 ≤ expiry - today) :
    price normCdf ⟨sym, OptionType.call, st, K, expiry, cq⟩ m today
      - price normCdf ⟨sym, OptionType.put, st, K, expiry, cq⟩ m today
    = m.spot * Real.exp (-m.dividend_yield * yearFrac expiry today)
      - K * Real.exp (-m.rate * yearFrac expiry today) := by
  have hT0 : 0 ≤ yearFrac expiry today := by
    unfold yearFrac
    have : (0 : ℝ) ≤ ((expiry - today : ℤ) : ℝ) := by exact_mod_cast hT
    positivity
  by_cases hle : yearFrac expiry today ≤ 0
  · have hTz : yearFrac expiry today = 0 := le_antisymm hle hT0
    simp only [price, hTz, le_refl, if_pos]
    rw [show K - m.spot = -(m.spot - K) by ring,
      max_zero_sub_max_neg_zero_eq_self]
    simp [Real.exp_zero]
  · by_cases hσ : m.volatility ≤ 0
    · simp only [price, if_neg hle, if_pos hσ]
      exact max_zero_sub_max_neg_zero_eq_self _
    · simp only [price, if_neg hle, if_neg hσ]
      have h1 := hsym ((Real.log (m.spot / K)
        + (m.rate - m.dividend_yield + 0.5 * m.volatility ^ 2) * yearFrac expiry today)
        / (m.volatility * Real.sqrt (yearFrac expiry today)))
      have h2 := hsym ((Real.log (m.spot / K)
        + (m.rate - m.dividend_yield + 0.5 * m.volatility ^ 2) * yearFrac expiry today)
        / (m.volatility * Real.sqrt (yearFrac expiry today))
        - m.volatility * Real.sqrt (yearFrac expiry today))
      linear_combination
        (m.spot * Real.exp (-m.dividend_yield * yearFrac expiry today)) * h1
        - (K * Real.exp (-m.rate * yearFrac expiry today)) * h2

/-- Witness for the amended put-call parity theorem: the constant 1/2
distribution, strike 100, one year to expiry, zero-volatility market. -/
theorem put_call_parity_witness :
    (∀ x : ℝ, (fun _ : ℝ => (1 : ℝ) / 2) x + (fun _ : ℝ => (1 : ℝ) / 2) (-x) = 1) ∧
    (0 : ℤ) ≤ 365 - 0 ∧
    price (fun _ => (1 : ℝ) / 2)
        ⟨"AAPL", OptionType.call, StyleType.european, 100, 365, 1⟩ zeroVolMarket 0
      - price (fun _ => (1 : ℝ) / 2)
        ⟨"AAPL", OptionType.put, StyleType.european, 100, 365, 1⟩ zeroVolMarket 0
    = zeroVolMarket.spot * Real.exp (-zeroVolMarket.dividend_yield * yearFrac 365 0)
      - 100 * Real.exp (-zeroVolMarket.rate * yearFrac 365 0) :=
  ⟨fun x => by norm_num, by norm_num,
   put_call_parity (fun _ => (1 : ℝ) / 2) (fun x => by norm_num)
     "AAPL" StyleType.european 100 1 365 0 zeroVolMarket (by norm_num)⟩

/-- Copy of a market snapshot with the volatility field replaced, as built
field by field in src/app/services/options/volatility/implied_vol.py. -/
def setVol (market : MarketSnapshot) (sigma : ℝ) : MarketSnapshot :=
  ⟨market.spot, market.rate, market.dividend_yield, sigma, market.timestamp⟩

/-- Newton-Raphson phase of the implied-volatility solver: at most `fuel`
iterations; returns `some sigma` on convergence and `none` when the loop
falls through to the bisection fallback (vega below 1e-8, a nonpositive
sigma update, or the iteration budget exhausted). -/
noncomputable def newtonLoop (normCdf normPdf : ℝ → ℝ) (market_price : ℝ)
    (option : OptionContract) (market : MarketSnapshot) (today : ℤ)
    (tol : ℝ) : ℕ → ℝ → Option ℝ
  | 0, _ => none
  | Nat.succ k, sigma =>
    let model_price := price normCdf option (setVol market sigma) today
    let diff := model_price - market_price
    if |diff| < tol then some sigma
    else
      let vega := (greeks normCdf normPdf option (setVol market sigma) today).vega
      if vega < 1e-8 then none
      else
        let sigma2 := sigma - diff / vega
        if sigma2 ≤ 0 then none
        else newtonLoop normCdf normPdf market_price option market today tol k sigma2

/-- Bisection fallback of the implied-volatility solver: at most `fuel`
iterations narrowing `[low, high]` on the midpoint's price, returning
`some mid` on convergence and `none` when the budget is exhausted. -/
noncomputable def bisectLoop (normCdf : ℝ → ℝ) (market_price : ℝ)
    (option : OptionContract) (market : MarketSnapshot) (today : ℤ)
    (tol : ℝ) : ℕ → ℝ → ℝ → Option ℝ
  | 0, _, _ => none
  | Nat.succ k, low, high =>
    let mid := 0.5 * (low + high)
    let mid_price := price normCdf option (setVol market mid) today
    if |mid_price - market_price| < tol then some mid
    else if mid_price > market_price then
      bisectLoop normCdf market_price option market today tol k low mid
    else
      bisectLoop normCdf market_price option market today tol k mid high

/-- Implied-volatility solver, translated from
src/app/services/options/volatility/implied_vol.py (`implied_vol`): input
validation, Newton-Raphson starting from max(initial_guess, 1e-4), then
bisection over [1e-6, 5.0] for up to 100 iterations, and a convergence
error when both fail.  The Python defaults are initial_guess = 0.2,
tol = 1e-6, max_iter = 50. -/
noncomputable def implied_vol (normCdf normPdf : ℝ → ℝ) (market_price : ℝ)
    (option : OptionContract) (market : MarketSnapshot) (today : ℤ)
    (initial_guess tol : ℝ) (max_iter : ℕ) : Except String ℝ :=
  if market_price ≤ 0 then Except.error "Market price must be positive"
  else if yearFrac option.expiry today ≤ 0 then
    Except.error "Implied vol undefined at expiry"
  else
    match newtonLoop normCdf normPdf market_price option market today tol
        max_iter (max initial_guess 1e-4) with
    | some sigma => Except.ok sigma
    | none =>
      match bisectLoop normCdf market_price option market today tol 100 1e-6 5 with
      | some sigma => Except.ok sigma
      | none => Except.error "Implied volatility did not converge"

/-- C4: `implied_vol` fails exactly when the observed price is ≤ 0, or
T ≤ 0, or both the Newton-Raphson phase and the 100-iteration bisection
fallback over [1e-6, 5.0] fail to converge; each failure mode carries its
own error value and the convergence error is distinct from both
input-validation errors. -/
theorem implied_vol_error_cases (normCdf normPdf : ℝ → ℝ) (market_price : ℝ)
    (option : OptionContract) (market : MarketSnapshot) (today : ℤ)
    (initial_guess tol : ℝ) (max_iter : ℕ) :
    ((∃ e, implied_vol normCdf normPdf market_price option market today
        initial_guess tol max_iter = Except.error e) ↔
      (market_price ≤ 0 ∨ yearFrac option.expiry today ≤ 0 ∨
        (newtonLoop normCdf normPdf market_price option market today tol
            max_iter (max initial_guess 1e-4) = none ∧
          bisectLoop normCdf market_price option market today tol 100 1e-6 5 = none))) ∧
    (implied_vol normCdf normPdf market_price option market today
        initial_guess tol max_iter = Except.error "Market price must be positive" ↔
      market_price ≤ 0) ∧
    (implied_vol normCdf normPdf market_price option market today
        initial_guess tol max_iter = Except.error "Implied vol undefined at expiry" ↔
      (¬market_price ≤ 0 ∧ yearFrac option.expiry today ≤ 0)) ∧
    (implied_vol normCdf normPdf market_price option market today
        initial_guess tol max_iter = Except.error "Implied volatility did not converge" ↔
      (¬market_price ≤ 0 ∧ ¬yearFrac option.expiry today ≤ 0 ∧
        newtonLoop normCdf normPdf market_price option market today tol
          max_iter (max initial_guess 1e-4) = none ∧
        bisectLoop normCdf market_price option market today tol 100 1e-6 5 = none)) ∧
    ("Implied volatility did not converge" ≠ "Market price must be positive" ∧
     "Implied volatility did not converge" ≠ "Implied vol undefined at expiry" ∧
     "Market price must be positive" ≠ "Implied vol undefined at expiry") := by
  unfold implied_vol
  by_cases h1 : market_price ≤ 0
  · simp [h1]
  · by_cases h2 : yearFrac option.expiry today ≤ 0
    · simp [h1, h2]
    · cases hN : newtonLoop normCdf normPdf market_price option market today tol
          max_iter (max initial_guess 1e-4) with
      | some s => simp [h1, h2, hN]
      | none =>
        cases hB : bisectLoop normCdf market_price option market today tol
            100 1e-6 5 with
        | some s => simp [h1, h2, hN, hB]
        | none => simp [h1, h2, hN, hB]

/-- Model of the NumPy random and statistics primitives used by
src/app/services/options/scenarios/monte_carlo.py.  The process-wide
global generator is modelled as a state of type ℕ: `seedState` is
`np.random.seed` (the state written by a seed value), `advance` is the
state after drawing n values, `normals g n i` is the i-th of the n
standard-normal draws made from state g, and `percentile`, `mean`, `std`
are the (pure, deterministic) NumPy aggregation functions. -/
structure NumpyModel where
  seedState : ℕ → ℕ
  advance : ℕ → ℕ → ℕ
  normals : ℕ → ℕ → ℕ → ℝ
  percentile : List ℝ → ℝ → ℝ
  mean : List ℝ → ℝ
  std : List ℝ → ℝ

/-- Percentile report of the Monte Carlo engine. -/
structure MCPercentiles where
  p01 : ℝ
  p05 : ℝ
  p10 : ℝ
  p25 : ℝ
  p50 : ℝ
  p75 : ℝ
  p90 : ℝ
  p95 : ℝ
  p99 : ℝ

/-- Tail-risk report of the Monte Carlo engine. -/
structure MCTailRisk where
  var_95 : ℝ
  var_99 : ℝ
  cvar_95 : ℝ
  cvar_99 : ℝ

/-- Assumptions echoed back by the Monte Carlo engine. -/
structure MCAssumptions where
  model : String
  spot : ℝ
  volatility : ℝ
  drift : ℝ
  horizon_days : ℤ
  n_simulations : ℕ
  risk_free_rate : ℝ
  dividend_yield : ℝ

/-- Result record of the Monte Carlo engine (`summary` flattened into the
`mean` and `std` fields). -/
structure MCResult where
  assumptions : MCAssumptions
  mean : ℝ
  std : ℝ
  percentiles : MCPercentiles
  tail_risk : MCTailRisk
  samples : Option (List ℝ)

/-- Monte Carlo scenario engine, translated from
src/app/services/options/scenarios/monte_carlo.py
(`monte_carlo_scenario`).  The ambient NumPy global generator state `g` is
made explicit: the function returns the result together with the post-call
global state.  `np.random.seed(seed)` becomes overwriting that state with
`np.seedState seed`, and drawing `n_sims` standard normals advances it. -/
noncomputable def monte_carlo_scenario (np : NumpyModel) (normCdf : ℝ → ℝ)
    (positions : List Position) (market : MarketSnapshot) (today : ℤ)
    (horizon_days : ℤ) (n_sims : ℕ) (vol drift : Option ℝ) (seed : Option ℕ)
    (return_samples : Bool) (g : ℕ) : Except String MCResult × ℕ :=
  if horizon_days ≤ 0 then (Except.error "horizon_days must be positive", g)
  else if n_sims ≤ 0 then (Except.error "n_sims must be positive", g)
  else
    let sigma := match vol with
      | some v => v
      | none => market.volatility
    if sigma ≤ 0 then (Except.error "volatility must be positive", g)
    else
      let mu := match drift with
        | some d => d
        | none => market.rate - market.dividend_yield
      let g0 := match seed with
        | some s => np.seedState s
        | none => g
      let T : ℝ := (horizon_days : ℝ) / 365
      let horizon_date := today + horizon_days
      let S0 := market.spot
      let Z : ℕ → ℝ := np.normals g0 n_sims
      let ST : ℕ → ℝ := fun i =>
        S0 * Real.exp ((mu - 0.5 * sigma ^ 2) * T + sigma * Real.sqrt T * Z i)
      let terminal_values : List ℝ :=
        (List.range n_sims).map fun i =>
          portfolio_price normCdf positions
            ⟨ST i, market.rate, market.dividend_yield, sigma, toString horizon_date⟩
            horizon_date
      let percentiles : MCPercentiles :=
        ⟨np.percentile terminal_values 1, np.percentile terminal_values 5,
         np.percentile terminal_values 10, np.percentile terminal_values 25,
         np.percentile terminal_values 50, np.percentile terminal_values 75,
         np.percentile terminal_values 90, np.percentile terminal_values 95,
         np.percentile terminal_values 99⟩
      let var_95 := percentiles.p05
      let var_99 := percentiles.p01
      let cvar_95 := np.mean (terminal_values.filter fun v => v ≤ var_95)
      let cvar_99 := np.mean (terminal_values.filter fun v => v ≤ var_99)
      (Except.ok
        ⟨⟨"GBM", S0, sigma, mu, horizon_days, n_sims, market.rate, market.dividend_yield⟩,
         np.mean terminal_values, np.std terminal_values, percentiles,
         ⟨var_95, var_99, cvar_95, cvar_99⟩,
         if return_samples then some terminal_values else none⟩,
       np.advance n_sims g0)

/-- Market used by the Monte Carlo concrete evaluations: spot 185,
rate 0.03, dividend yield 0.005, volatility 0.25 (the repository's own
test market). -/
def mcMarket : MarketSnapshot :=
  ⟨185, 0.03, 0.005, 0.25, "2026-01-22"⟩

/-- C5: contrary to the claim, a seeded call goes through the process-wide
generator: for every model of the NumPy primitives the post-call global
state is `advance n_sims (seedState 42)` — it both overwrites and advances
the shared state, forgetting the pre-call state entirely — and in
particular some pre-call state is mutated by the call. -/
theorem monte_carlo_seeded_mutates_global_state (np : NumpyModel)
    (normCdf : ℝ → ℝ) (g : ℕ) :
    (monte_carlo_scenario np normCdf [] mcMarket 0 30 2000 none none
        (some 42) false g).2 = np.advance 2000 (np.seedState 42) ∧
    ∃ g0 : ℕ, (monte_carlo_scenario np normCdf [] mcMarket 0 30 2000 none none
        (some 42) false g0).2 ≠ g0 := by
  have h : ∀ g1 : ℕ, (monte_carlo_scenario np normCdf [] mcMarket 0 30 2000
      none none (some 42) false g1).2 = np.advance 2000 (np.seedState 42) := by
    intro g1
    simp [monte_carlo_scenario, mcMarket]
    norm_num
  refine ⟨h g, ⟨np.advance 2000 (np.seedState 42) + 1, ?_⟩⟩
  rw [h]
  omega

/-- C6: with an explicit seed, the returned result is a function of the
explicit inputs and the seed only: two calls with identical inputs and the
same seed return identical results (same mean, std, every percentile and
all tail-risk values), whatever the ambient global generator state of each
call. -/
theorem monte_carlo_seed_reproducible (np : NumpyModel) (normCdf : ℝ → ℝ)
    (positions : List Position) (market : MarketSnapshot) (today : ℤ)
    (horizon_days : ℤ) (n_sims : ℕ) (vol drift : Option ℝ) (s : ℕ)
    (return_samples : Bool) (g1 g2 : ℕ) :
    (monte_carlo_scenario np normCdf positions market today horizon_days
        n_sims vol drift (some s) return_samples g1).1 =
    (monte_carlo_scenario np normCdf positions market today horizon_days
        n_sims vol drift (some s) return_samples g2).1 := by
  simp only [monte_carlo_scenario]
  split_ifs <;> rfl

/-- C10: a supplied vol override replaces the market volatility
everywhere at once — a call with override `some v` behaves exactly like a
call without an override on a market whose volatility field is `v`, and
the original market volatility field plays no role (any value `w` gives
the same output, including the GBM terminal spots, every terminal
snapshot's flat volatility, and the post-call generator state). -/
theorem monte_carlo_vol_override (np : NumpyModel) (normCdf : ℝ → ℝ)
    (positions : List Position) (market : MarketSnapshot) (today : ℤ)
    (horizon_days : ℤ) (n_sims : ℕ) (v w : ℝ) (drift : Option ℝ)
    (seed : Option ℕ) (return_samples : Bool) (g : ℕ) :
    monte_carlo_scenario np normCdf positions
      ⟨market.spot, market.rate, market.dividend_yield, w, market.timestamp⟩
      today horizon_days n_sims (some v) drift seed return_samples g =
    monte_carlo_scenario np normCdf positions
      ⟨market.spot, market.rate, market.dividend_yield, v, market.timestamp⟩
      today horizon_days n_sims none drift seed return_samples g := by
  rfl

/-- Spot-grid builder, translated from
src/app/services/options/scenarios/payoff.py (`make_spot_grid`):
validation, then `n` points `lo + i * step` for i in range(n) with
lo = max(min_spot, center·(1−pct_range)), hi = center·(1+pct_range) and
step = (hi − lo)/(n − 1).  Python floats are modelled as rationals here;
every arithmetic step of the concrete examples used below is exact in
binary floating point as well.  The Python defaults are pct_range = 0.5,
n = 101, min_spot = 0.01. -/
def make_spot_grid (spot_center pct_range : ℚ) (n : ℕ) (min_spot : ℚ) :
    Except String (List ℚ) :=
  if spot_center ≤ 0 then Except.error "spot_center must be > 0"
  else if pct_range ≤ 0 then Except.error "pct_range must be > 0"
  else if n < 2 then Except.error "n must be >= 2"
  else
    let lo := max min_spot (spot_center * (1 - pct_range))
    let hi := spot_center * (1 + pct_range)
    let step := (hi - lo) / ((n : ℚ) - 1)
    Except.ok ((List.range n).map fun i : ℕ => lo + (i : ℚ) * step)

/-- C9 counterexample: with center 0.001, pct_range 0.5 and the default
min_spot 0.01 the clamp exceeds the upper end, so the grid
[0.01, 0.00575, 0.0015] is returned without error but is strictly
decreasing, not increasing as the claim states. -/
theorem make_spot_grid_counterexample :
    make_spot_grid (1 / 1000) (1 / 2) 3 (1 / 100) =
      Except.ok [1 / 100, 23 / 4000, 3 / 2000] ∧
    ¬List.Chain' (fun a b => a < b) [(1 : ℚ) / 100, 23 / 4000, 3 / 2000] := by
  constructor
  · norm_num [make_spot_grid, List.range_succ]
  · rw [List.chain'_cons]
    norm_num

/-- C9 amended: `make_spot_grid` fails exactly when center ≤ 0,
pct_range ≤ 0 or n < 2; otherwise it returns the n evenly spaced points
lo + i·step with lo = max(min_spot, center·(1−pct_range)),
hi = center·(1+pct_range) and step = (hi − lo)/(n−1), whose first element
is lo and last element is hi exactly, and which are strictly increasing
whenever lo < hi (the claim's unconditional "increasing" fails when
min_spot clamps lo to at least hi). -/
theorem make_spot_grid_cases (c p : ℚ) (n : ℕ) (m : ℚ) :
    ((∃ e, make_spot_grid c p n m = Except.error e) ↔
      (c ≤ 0 ∨ p ≤ 0 ∨ n < 2)) ∧
    ∀ l, make_spot_grid c p n m = Except.ok l →
      l.length = n ∧
      (∀ i, ∀ hig : i < l.length, l.get ⟨i, hig⟩
        = max m (c * (1 - p)) + (i : ℚ)
            * ((c * (1 + p) - max m (c * (1 - p))) / ((n : ℚ) - 1))) ∧
      (max m (c * (1 - p)) < c * (1 + p) →
        ∀ i j, ∀ hig : i < l.length, ∀ hjg : j < l.length, i < j →
          l.get ⟨i, hig⟩ < l.get ⟨j, hjg⟩) ∧
      (∀ h0 : 0 < l.length, l.get ⟨0, h0⟩ = max m (c * (1 - p))) ∧
      (∀ hL : n - 1 < l.length, l.get ⟨n - 1, hL⟩ = c * (1 + p)) := by
  constructor
  · unfold make_spot_grid
    by_cases h1 : c ≤ 0 <;> by_cases h2 : p ≤ 0 <;> by_cases h3 : n < 2 <;>
      simp [h1, h2, h3]
  · intro l hl
    have hval : ¬c ≤ 0 ∧ ¬p ≤ 0 ∧ ¬n < 2 ∧
        l = (List.range n).map (fun i : ℕ => max m (c * (1 - p)) + (i : ℚ)
          * ((c * (1 + p) - max m (c * (1 - p))) / ((n : ℚ) - 1))) := by
      unfold make_spot_grid at hl
      by_cases h1 : c ≤ 0
      · simp [h1] at hl
      · by_cases h2 : p ≤ 0
        · simp [h1, h2] at hl
        · by_cases h3 : n < 2
          · simp [h1, h2, h3] at hl
          · simp [h1, h2, h3] at hl
            exact ⟨h1, h2, h3, hl.symm⟩
    obtain ⟨h1, h2, h3, rfl⟩ := hval
    have hn2 : 2 ≤ n := by omega
    have hnq : (2 : ℚ) ≤ (n : ℚ) := by exact_mod_cast hn2
    have hden : (0 : ℚ) < (n : ℚ) - 1 := by linarith
    have hget : ∀ i, ∀ hig : i <
        ((List.range n).map (fun i : ℕ => max m (c * (1 - p)) + (i : ℚ)
          * ((c * (1 + p) - max m (c * (1 - p))) / ((n : ℚ) - 1)))).length,
        ((List.range n).map (fun i : ℕ => max m (c * (1 - p)) + (i : ℚ)
          * ((c * (1 + p) - max m (c * (1 - p))) / ((n : ℚ) - 1)))).get ⟨i, hig⟩
        = max m (c * (1 - p)) + (i : ℚ)
            * ((c * (1 + p) - max m (c * (1 - p))) / ((n : ℚ) - 1)) := by
      intro i hig
      simp
    refine ⟨by simp, hget, ?_, ?_, ?_⟩
    · intro hlo i j hig hjg hij
      rw [hget i hig, hget j hjg]
      have hstep : (0 : ℚ) < (c * (1 + p) - max m (c * (1 - p))) / ((n : ℚ) - 1) :=
        div_pos (by linarith) hden
      have hcast : (i : ℚ) < (j : ℚ) := by exact_mod_cast hij
      nlinarith
    · intro h0
      rw [hget 0 h0]
      simp
    · intro hL
      rw [hget (n - 1) hL]
      have hcast : ((n - 1 : ℕ) : ℚ) = (n : ℚ) - 1 := by
        have : 1 ≤ n := by omega
        push_cast [this]
        ring
      rw [hcast, mul_div_cancel₀ _ (ne_of_gt hden)]
      ring

/-- The spec's example grid: 11 points from 92.5 to 277.5 in steps of
18.5. -/
def gridExample : List ℚ :=
  [185 / 2, 111, 259 / 2, 148, 333 / 2, 185, 407 / 2, 222, 481 / 2, 259,
    555 / 2]

/-- Witness for the amended C9 theorem at the spec's own example
(center 185, pct_range 0.5, n 11, min_spot 0.01): the returned grid is
`gridExample`, has 11 points, starts at max(0.01, 185·0.5) = 92.5, ends at
185·1.5 = 277.5 and is increasing. -/
theorem make_spot_grid_cases_witness :
    make_spot_grid 185 (1 / 2) 11 (1 / 100) = Except.ok gridExample ∧
    gridExample.length = 11 ∧
    gridExample.get ⟨0, by norm_num [gridExample]⟩
      = max (1 / 100 : ℚ) (185 * (1 - 1 / 2)) ∧
    gridExample.get ⟨10, by norm_num [gridExample]⟩
      = (185 : ℚ) * (1 + 1 / 2) ∧
    gridExample.get ⟨0, by norm_num [gridExample]⟩
      < gridExample.get ⟨1, by norm_num [gridExample]⟩ := by
  have hok : make_spot_grid 185 (1 / 2) 11 (1 / 100) = Except.ok gridExample := by
    norm_num [make_spot_grid, gridExample, List.range_succ]
  obtain ⟨hlen, hget, hmono, hfirst, hlast⟩ :=
    (make_spot_grid_cases 185 (1 / 2) 11 (1 / 100)).2 gridExample hok
  exact ⟨hok, hlen, hfirst (by norm_num [gridExample]),
    hlast (by norm_num [gridExample]),
    hmono (by norm_num) 0 1 (by norm_num [gridExample])
      (by norm_num [gridExample]) (by norm_num)⟩

end OptionsEngine
